import Mathlib

/-!
Verification of the ruskell parser-combinator core against its specification.

The embedding translates src/parsec/combinator.rs: `Status<T>` is
`Result<Arc<T>, SimpleError>` (the `Arc` payload is embedded by value, since
the payload is shared and immutable), and `Parsec<T, R>` is
`Box<FnMut(&mut VecState<T>) -> Status<R>>`, embedded as a pure function that
takes the cursor state and returns the status together with the updated state.
The stream cursor `VecState` and the error type `SimpleError` live in the
parsec module root, which is not part of the staged sources; they are modelled
from the specification's description of the cursor interface (an ordered token
sequence with a comparable position marker, `pos`, and an exact `seek_to`).
Rust's `try` and `then` are Lean keywords, so those two combinators are named
`ptry` and `pthen` here; every other name follows the source.
-/

namespace Ruskell

/-- Modelled from the spec: the parse error of the parsec module root
(not under the staged sources): a position marker and a message,
immutable once constructed. -/
structure SimpleError where
  pos : Nat
  message : String
  deriving DecidableEq

/-- Modelled from the spec: `SimpleError::new(position, message)` builds the
error that records where and why a parse attempt failed. -/
def SimpleError.new (pos : Nat) (message : String) : SimpleError :=
  { pos := pos, message := message }

/-- Modelled from the spec: the token-stream cursor `VecState<T>`, an ordered
sequence of tokens with a mutable cursor position; the position is embedded as
the `Nat` index of the cursor. -/
structure VecState (T : Type) where
  tokens : List T
  index : Nat
  deriving DecidableEq

/-- Modelled from the spec: `current_position()`, pure and side-effect-free. -/
def VecState.pos {T : Type} (s : VecState T) : Nat := s.index

/-- Modelled from the spec: `seek_to(marker)` restores the cursor to the
marker exactly, with no side effect beyond repositioning. -/
def VecState.seek_to {T : Type} (s : VecState T) (p : Nat) : VecState T :=
  { s with index := p }

/-- `pub type Status<T> = Result<Arc<T>, SimpleError>` (combinator.rs line 4). -/
abbrev Status (R : Type) : Type := Except SimpleError R

/-- Rust's `Result::is_ok` on a `Status`. -/
def Status.is_ok {R : Type} : Status R → Bool
  | Except.ok _ => true
  | Except.error _ => false

/-- Rust's `Result::is_err` on a `Status`. -/
def Status.is_err {R : Type} : Status R → Bool
  | Except.ok _ => false
  | Except.error _ => true

/-- `pub type Parsec<T, R> = Box<FnMut(&mut VecState<T>)->Status<R>>`
(combinator.rs line 5), embedded as a pure state-passing function. -/
abbrev Parsec (T R : Type) : Type := VecState T → Status R × VecState T

/-- `pack` (combinator.rs lines 7-12): ignores the stream and returns a clone
of the shared data. -/
def pack {T R : Type} (data : R) : Parsec T R :=
  fun state => (Except.ok data, state)

/-- `try` (combinator.rs lines 14-23), renamed `ptry`: records the position,
runs the inner parser, and on an error result seeks back to the recorded
position before returning the value unchanged. -/
def ptry {T R : Type} (parsec : Parsec T R) : Parsec T R :=
  fun state =>
    let pos := VecState.pos state
    match parsec state with
    | (val, state1) =>
      if Status.is_err val then (val, VecState.seek_to state1 pos)
      else (val, state1)

/-- `fail` (combinator.rs lines 25-29): always returns
`Err(SimpleError::new(state.pos(), msg.clone()))`; the result type is `()`. -/
def fail {T : Type} (msg : String) : Parsec T Unit :=
  fun state =>
    (Except.error (SimpleError.new (VecState.pos state) msg), state)

/-- `pub struct Either<T, R>` (combinator.rs lines 31-34). -/
structure Either (T R : Type) where
  x : Parsec T R
  y : Parsec T R

/-- `either` (combinator.rs lines 36-41). -/
def either {T R : Type} (x : Parsec T R) (y : Parsec T R) : Either T R :=
  { x := x, y := y }

/-- `Either::call_once` (combinator.rs lines 43-61): record the start
position, run `x`; on success return its value, otherwise run `y` only when
the position has not moved. -/
def Either.call_once {T R : Type} (self : Either T R) : Parsec T R :=
  fun state =>
    let pos := VecState.pos state
    match self.x state with
    | (val, state1) =>
      if Status.is_ok val then (val, state1)
      else if pos = VecState.pos state1 then self.y state1
      else (val, state1)

/-- `Either::call_mut` (combinator.rs lines 63-79): the same body as
`call_once`, taking the composite by mutable reference. -/
def Either.call_mut {T R : Type} (self : Either T R) : Parsec T R :=
  fun state =>
    let pos := VecState.pos state
    match self.x state with
    | (val, state1) =>
      if Status.is_ok val then (val, state1)
      else if pos = VecState.pos state1 then self.y state1
      else (val, state1)

/-- `Either::or` (combinator.rs lines 81-86): `either(Box::new(self), p)`;
boxing the composite as a `Parsec` dispatches through `call_mut`. -/
def Either.or {T R : Type} (self : Either T R) (p : Parsec T R) : Either T R :=
  either (Either.call_mut self) p

/-- `pub struct Bind<T, C, P>` (combinator.rs lines 89-92): a parser plus a
binder that builds the continuation parser from the shared success value. -/
structure Bind (T C P : Type) where
  parsec : Parsec T C
  binder : C → Parsec T P

/-- `bind` (combinator.rs lines 94-99). -/
def bind {T C P : Type} (parsec : Parsec T C) (binder : C → Parsec T P) :
    Bind T C P :=
  { parsec := parsec, binder := binder }

/-- `Bind::call_once` (combinator.rs lines 101-111): run the parser, map the
binder over the status to build the continuation, run it on the same stream,
and flatten errors with `unwrap_or_else`. -/
def Bind.call_once {T C P : Type} (self : Bind T C P) : Parsec T P :=
  fun state =>
    match self.parsec state with
    | (val, state1) =>
      match Except.map self.binder val with
      | Except.ok p => p state1
      | Except.error err => (Except.error err, state1)

/-- `Bind::call_mut` (combinator.rs lines 113-121): the same body as
`call_once`, taking the composite by mutable reference. -/
def Bind.call_mut {T C P : Type} (self : Bind T C P) : Parsec T P :=
  fun state =>
    match self.parsec state with
    | (val, state1) =>
      match Except.map self.binder val with
      | Except.ok p => p state1
      | Except.error err => (Except.error err, state1)

/-- `pub struct Then<T, C, P>` (combinator.rs lines 145-148); the fields are
named `prefix` and `postfix` in the source. -/
structure Then (T C P : Type) where
  pre : Parsec T C
  post : Parsec T P

/-- `then` (combinator.rs lines 150-155), renamed `pthen`. -/
def pthen {T C P : Type} (pre : Parsec T C) (post : Parsec T P) : Then T C P :=
  { pre := pre, post := post }

/-- `Then::call_once` (combinator.rs lines 157-166): run the first parser,
and on success discard its value and run the second on the same stream. -/
def Then.call_once {T C P : Type} (self : Then T C P) : Parsec T P :=
  fun state =>
    match self.pre state with
    | (val, state1) =>
      match val with
      | Except.ok _ => self.post state1
      | Except.error err => (Except.error err, state1)

/-- `Then::call_mut` (combinator.rs lines 168-175): the same body as
`call_once`, taking the composite by mutable reference. -/
def Then.call_mut {T C P : Type} (self : Then T C P) : Parsec T P :=
  fun state =>
    match self.pre state with
    | (val, state1) =>
      match val with
      | Except.ok _ => self.post state1
      | Except.error err => (Except.error err, state1)

/-- `pub struct Over<T, C, P>` (combinator.rs lines 199-202); the fields are
named `prefix` and `postfix` in the source. -/
structure Over (T C P : Type) where
  pre : Parsec T C
  post : Parsec T P

/-- `over` (combinator.rs lines 204-209). -/
def over {T C P : Type} (pre : Parsec T C) (post : Parsec T P) : Over T C P :=
  { pre := pre, post := post }

/-- `Over::call_once` (combinator.rs lines 211-221): run the first parser;
on success run the second and, when it also succeeds, return a clone of the
first parser's shared value at the second parser's resulting state. -/
def Over.call_once {T C P : Type} (self : Over T C P) : Parsec T C :=
  fun state =>
    match self.pre state with
    | (val, state1) =>
      match val with
      | Except.ok x =>
        match self.post state1 with
        | (val2, state2) =>
          match val2 with
          | Except.ok _ => (Except.ok x, state2)
          | Except.error err => (Except.error err, state2)
      | Except.error err => (Except.error err, state1)

/-- `Over::call_mut` (combinator.rs lines 223-231): the same body as
`call_once`, taking the composite by mutable reference. -/
def Over.call_mut {T C P : Type} (self : Over T C P) : Parsec T C :=
  fun state =>
    match self.pre state with
    | (val, state1) =>
      match val with
      | Except.ok x =>
        match self.post state1 with
        | (val2, state2) =>
          match val2 with
          | Except.ok _ => (Except.ok x, state2)
          | Except.error err => (Except.error err, state2)
      | Except.error err => (Except.error err, state1)

/-- `Bind::over` (combinator.rs lines 124-129): wraps `Box::new(self)` as the
first operand of an `Over`. -/
def Bind.over {T C P Q : Type} (self : Bind T C P) (post : Parsec T Q) :
    Over T P Q :=
  { pre := Bind.call_mut self, post := post }

/-- `Bind::bind` (combinator.rs lines 130-135). -/
def Bind.bind {T C P Q : Type} (self : Bind T C P)
    (binder : P → Parsec T Q) : Bind T P Q :=
  { parsec := Bind.call_mut self, binder := binder }

/-- `Bind::then` (combinator.rs lines 136-141), renamed `Bind.pthen`. -/
def Bind.pthen {T C P Q : Type} (self : Bind T C P) (post : Parsec T Q) :
    Then T P Q :=
  { pre := Bind.call_mut self, post := post }

/-- `Then::over` (combinator.rs lines 178-183). -/
def Then.over {T C P Q : Type} (self : Then T C P) (post : Parsec T Q) :
    Over T P Q :=
  { pre := Then.call_mut self, post := post }

/-- `Then::then` (combinator.rs lines 184-189), renamed `Then.pthen`. -/
def Then.pthen {T C P Q : Type} (self : Then T C P) (post : Parsec T Q) :
    Then T P Q :=
  { pre := Then.call_mut self, post := post }

/-- `Then::bind` (combinator.rs lines 190-195). -/
def Then.bind {T C P Q : Type} (self : Then T C P)
    (binder : P → Parsec T Q) : Bind T P Q :=
  { parsec := Then.call_mut self, binder := binder }

/-- `Over::over` (combinator.rs lines 234-239). -/
def Over.over {T C P Q : Type} (self : Over T C P) (post : Parsec T Q) :
    Over T C Q :=
  { pre := Over.call_mut self, post := post }

/-- `Over::then` (combinator.rs lines 240-245), renamed `Over.pthen`. -/
def Over.pthen {T C P Q : Type} (self : Over T C P) (post : Parsec T Q) :
    Then T C Q :=
  { pre := Over.call_mut self, post := post }

/-- `Over::bind` (combinator.rs lines 246-251). -/
def Over.bind {T C P Q : Type} (self : Over T C P)
    (binder : C → Parsec T Q) : Bind T C Q :=
  { parsec := Over.call_mut self, binder := binder }

/-- The fluent methods the source impl block for `Either`
(combinator.rs lines 81-86) provides, in source order. -/
def Either.fluent_api : List String := ["or"]

/-- The fluent methods the source impl block for `Bind`
(combinator.rs lines 123-142) provides, in source order. -/
def Bind.fluent_api : List String := ["over", "bind", "then"]

/-- The fluent methods the source impl block for `Then`
(combinator.rs lines 177-196) provides, in source order. -/
def Then.fluent_api : List String := ["over", "then", "bind"]

/-- The fluent methods the source impl block for `Over`
(combinator.rs lines 233-252) provides, in source order. -/
def Over.fluent_api : List String := ["over", "then", "bind"]

/-- C1: if `x` fails leaving the cursor at the position recorded when
`either(x, y)` was invoked, then `y` is invoked on the post-`x` stream and
`either(x, y)` returns exactly `y`'s result, success or failure, leaving the
cursor where `y` left it. -/
theorem either_no_progress_fallback {T R : Type} (x y : Parsec T R)
    (s s1 : VecState T) (e : SimpleError)
    (hx : x s = (Except.error e, s1)) (hpos : VecState.pos s1 = VecState.pos s) :
    Either.call_mut (either x y) s = y s1 := by
  simp [Either.call_mut, either, hx, Status.is_ok, hpos]

theorem either_no_progress_fallback_witness :
    Either.call_mut
      (either (fun s => (Except.error (SimpleError.new 0 ("e")), s)) (pack 7))
      (VecState.mk (["a", "b"]) 0)
      = (Except.ok 7, VecState.mk (["a", "b"]) 0) :=
  either_no_progress_fallback
    (fun s => (Except.error (SimpleError.new 0 ("e")), s)) (pack 7)
    (VecState.mk (["a", "b"]) 0) (VecState.mk (["a", "b"]) 0)
    (SimpleError.new 0 ("e")) rfl rfl

/-- C2: if `x` fails with the cursor at a position different from the start
position, `either(x, y)` returns `x`'s failure unchanged with the cursor at
the post-`x` position, whatever `y` is (so `y` is never invoked). -/
theorem either_progress_lock {T R : Type} (x y : Parsec T R)
    (s s1 : VecState T) (e : SimpleError)
    (hx : x s = (Except.error e, s1)) (hpos : VecState.pos s1 ≠ VecState.pos s) :
    Either.call_mut (either x y) s = (Except.error e, s1) := by
  simp [Either.call_mut, either, hx, Status.is_ok]
  intro h
  exact absurd h.symm hpos

theorem either_progress_lock_witness :
    Either.call_mut
      (either
        (fun s => (Except.error (SimpleError.new 1 ("e")), VecState.seek_to s 1))
        (pack 7))
      (VecState.mk (["a", "b"]) 0)
      = (Except.error (SimpleError.new 1 ("e")), VecState.mk (["a", "b"]) 1) :=
  either_progress_lock
    (fun s => (Except.error (SimpleError.new 1 ("e")), VecState.seek_to s 1))
    (pack 7)
    (VecState.mk (["a", "b"]) 0) (VecState.mk (["a", "b"]) 1)
    (SimpleError.new 1 ("e")) rfl (by decide)

/-- C3: when `P` at state `s` fails after consuming any number of tokens,
`ptry P` fails with the same error and the cursor position after the
invocation equals `s`'s position exactly; when `P` succeeds, `ptry P`
produces the identical success value and the identical resulting state. -/
theorem try_position_reset {T R : Type} (p : Parsec T R) (s : VecState T) :
    (∀ e s1, p s = (Except.error e, s1) →
        ptry p s = (Except.error e, VecState.seek_to s1 (VecState.pos s))
        ∧ VecState.pos (ptry p s).2 = VecState.pos s)
    ∧ (∀ v s1, p s = (Except.ok v, s1) → ptry p s = (Except.ok v, s1)) := by
  constructor
  · intro e s1 h
    constructor
    · simp [ptry, h, Status.is_err]
    · simp [ptry, h, Status.is_err, VecState.seek_to, VecState.pos]
  · intro v s1 h
    simp [ptry, h, Status.is_err]

theorem try_position_reset_witness :
    ptry (R := Nat)
      (fun s => (Except.error (SimpleError.new 1 ("e")), VecState.seek_to s 1))
      (VecState.mk (["a", "b"]) 0)
      = (Except.error (SimpleError.new 1 ("e")), VecState.mk (["a", "b"]) 0) :=
  ((try_position_reset (R := Nat)
      (fun s => (Except.error (SimpleError.new 1 ("e")), VecState.seek_to s 1))
      (VecState.mk (["a", "b"]) 0)).1
    (SimpleError.new 1 ("e")) (VecState.mk (["a", "b"]) 1) rfl).1

/-- C4: `bind(p, f)` runs `p`; on success with shared value `v` it invokes
exactly the continuation `f v` on the stream state `p` left behind, so the
continuation may depend on `v`; on failure of `p` the binder plays no role
and the failure is returned unchanged at the post-`p` state. -/
theorem bind_continuation {T A B : Type} (p : Parsec T A)
    (f : A → Parsec T B) (s : VecState T) :
    (∀ v s1, p s = (Except.ok v, s1) →
        Bind.call_mut (bind p f) s = f v s1)
    ∧ (∀ e s1, p s = (Except.error e, s1) →
        Bind.call_mut (bind p f) s = (Except.error e, s1)) := by
  constructor
  · intro v s1 h
    simp [Bind.call_mut, bind, h, Except.map]
  · intro e s1 h
    simp [Bind.call_mut, bind, h, Except.map]

theorem bind_continuation_witness :
    Bind.call_mut
      (bind (pack 1) (fun v => if v = 1 then pack 99 else pack 0))
      (VecState.mk (["a", "b"]) 0)
      = (Except.ok 99, VecState.mk (["a", "b"]) 0) :=
  (bind_continuation (pack 1) (fun v => if v = 1 then pack 99 else pack 0)
      (VecState.mk (["a", "b"]) 0)).1
    1 (VecState.mk (["a", "b"]) 0) rfl

/-- C5: if the first parser fails, both `pthen` and `over` return that
failure and the second parser is never invoked (the result holds for every
second parser); if the first succeeds with `a` and the second then succeeds
with `b` leaving the cursor at `s2`, `pthen` returns success `b` at `s2` and
`over` returns success `a` at `s2`. -/
theorem then_over_sequencing {T A B : Type} (pre : Parsec T A)
    (post : Parsec T B) (s : VecState T) :
    (∀ e s1, pre s = (Except.error e, s1) →
        Then.call_mut (pthen pre post) s = (Except.error e, s1)
        ∧ Over.call_mut (over pre post) s = (Except.error e, s1))
    ∧ (∀ a s1 b s2, pre s = (Except.ok a, s1) → post s1 = (Except.ok b, s2) →
        Then.call_mut (pthen pre post) s = (Except.ok b, s2)
        ∧ Over.call_mut (over pre post) s = (Except.ok a, s2)) := by
  constructor
  · intro e s1 h
    constructor
    · simp [Then.call_mut, pthen, h]
    · simp [Over.call_mut, over, h]
  · intro a s1 b s2 h1 h2
    constructor
    · simp [Then.call_mut, pthen, h1, h2]
    · simp [Over.call_mut, over, h1, h2]

theorem then_over_sequencing_witness :
    Then.call_mut (pthen (pack 1) (pack 2)) (VecState.mk (["a", "b"]) 0)
      = (Except.ok 2, VecState.mk (["a", "b"]) 0)
    ∧ Over.call_mut (over (pack 1) (pack 2)) (VecState.mk (["a", "b"]) 0)
      = (Except.ok 1, VecState.mk (["a", "b"]) 0) :=
  (then_over_sequencing (pack 1) (pack 2) (VecState.mk (["a", "b"]) 0)).2
    1 (VecState.mk (["a", "b"]) 0) 2 (VecState.mk (["a", "b"]) 0) rfl rfl

/-- C6: for every value, stream and cursor position, `pack v` succeeds with
the shared value `v`, never fails, and leaves the cursor position unchanged. -/
theorem pack_pure {T R : Type} (v : R) (s : VecState T) :
    pack v s = (Except.ok v, s)
    ∧ Status.is_ok (pack (T := T) v s).1 = true
    ∧ VecState.pos (pack (T := T) v s).2 = VecState.pos s :=
  ⟨rfl, rfl, rfl⟩

/-- C7: for every message, stream and cursor position, `fail m` returns a
failure whose error carries the position at the moment of invocation and the
message `m`, never succeeds, and leaves the cursor position unchanged. -/
theorem fail_never_succeeds {T : Type} (m : String) (s : VecState T) :
    fail m s = (Except.error (SimpleError.new (VecState.pos s) m), s)
    ∧ Status.is_err (fail (T := T) m s).1 = true
    ∧ VecState.pos (fail (T := T) m s).2 = VecState.pos s :=
  ⟨rfl, rfl, rfl⟩

/-- C8 counterexample: the source impl block for `Either` provides only
`or`; it exposes none of the fluent methods `then`, `over`, `bind`, so the
claim that every composite exposes all three fails at `Either`. -/
theorem either_fluent_surface_incomplete :
    ¬(("then" ∈ Either.fluent_api) ∧ ("over" ∈ Either.fluent_api)
        ∧ ("bind" ∈ Either.fluent_api)) := by
  decide

/-- C8 (amended): `Bind`, `Then` and `Over` expose fluent `then`, `over` and
`bind`, while `Either` exposes only `or`; each method that exists returns a
composite that behaves on every stream exactly as the corresponding base
combinator applied with `self` (invoked through its FnMut implementation) as
the first operand, so the fluent surface introduces no new behaviour. -/
theorem fluent_surface_equivalence {T R A B Q : Type} :
    (Either.fluent_api = ["or"]
      ∧ Bind.fluent_api = ["over", "bind", "then"]
      ∧ Then.fluent_api = ["over", "then", "bind"]
      ∧ Over.fluent_api = ["over", "then", "bind"])
    ∧ (∀ (c : Either T R) (p : Parsec T R) (s : VecState T),
        Either.call_mut (Either.or c p) s
          = Either.call_mut (either (Either.call_mut c) p) s)
    ∧ (∀ (c : Bind T A B) (p : Parsec T Q) (s : VecState T),
        Then.call_mut (Bind.pthen c p) s
          = Then.call_mut (pthen (Bind.call_mut c) p) s)
    ∧ (∀ (c : Bind T A B) (p : Parsec T Q) (s : VecState T),
        Over.call_mut (Bind.over c p) s
          = Over.call_mut (over (Bind.call_mut c) p) s)
    ∧ (∀ (c : Bind T A B) (f : B → Parsec T Q) (s : VecState T),
        Bind.call_mut (Bind.bind c f) s
          = Bind.call_mut (bind (Bind.call_mut c) f) s)
    ∧ (∀ (c : Then T A B) (p : Parsec T Q) (s : VecState T),
        Then.call_mut (Then.pthen c p) s
          = Then.call_mut (pthen (Then.call_mut c) p) s)
    ∧ (∀ (c : Then T A B) (p : Parsec T Q) (s : VecState T),
        Over.call_mut (Then.over c p) s
          = Over.call_mut (over (Then.call_mut c) p) s)
    ∧ (∀ (c : Then T A B) (f : B → Parsec T Q) (s : VecState T),
        Bind.call_mut (Then.bind c f) s
          = Bind.call_mut (bind (Then.call_mut c) f) s)
    ∧ (∀ (c : Over T A B) (p : Parsec T Q) (s : VecState T),
        Then.call_mut (Over.pthen c p) s
          = Then.call_mut (pthen (Over.call_mut c) p) s)
    ∧ (∀ (c : Over T A B) (p : Parsec T Q) (s : VecState T),
        Over.call_mut (Over.over c p) s
          = Over.call_mut (over (Over.call_mut c) p) s)
    ∧ (∀ (c : Over T A B) (f : A → Parsec T Q) (s : VecState T),
        Bind.call_mut (Over.bind c f) s
          = Bind.call_mut (bind (Over.call_mut c) f) s) := by
  refine ⟨⟨rfl, rfl, rfl, rfl⟩, ?_, ?_, ?_, ?_, ?_, ?_, ?_, ?_, ?_, ?_⟩ <;>
    intros <;> rfl

/-- C10: for each composite parser (`Either`, `Bind`, `Then`, `Over`), the
FnOnce implementation `call_once` and the FnMut implementation `call_mut`
agree on every stream in every cursor state: same parse result, same final
stream state. -/
theorem call_once_matches_call_mut {T R A B : Type} :
    (∀ (c : Either T R) (s : VecState T),
        Either.call_once c s = Either.call_mut c s)
    ∧ (∀ (c : Bind T A B) (s : VecState T),
        Bind.call_once c s = Bind.call_mut c s)
    ∧ (∀ (c : Then T A B) (s : VecState T),
        Then.call_once c s = Then.call_mut c s)
    ∧ (∀ (c : Over T A B) (s : VecState T),
        Over.call_once c s = Over.call_mut c s) := by
  refine ⟨?_, ?_, ?_, ?_⟩ <;> intros <;> rfl

end Ruskell
